import Mathlib

/-!
Verification of Notly's asset store, card creation and search index.

Shallow embedding of `src-tauri/src/commands/database.rs`.

* The asset-store commands (`copy_file_to_assets`, `delete_asset_file`,
  `get_asset_path`) perform real filesystem work; the filesystem is embedded
  as an explicit state (`FS`): a finite association list from paths to file
  contents plus a list of existing directories.  Paths are lists of
  components; `chrono::Utc::now().timestamp_millis()` is passed in as an
  explicit `ts : Int` parameter.
* `create_card` is a pure computation embedded directly (`createCard`);
  the `as i32` cast is modelled by `i32ofNat`.
* The FTS5 commands (`fts_search`, `fts_index_entity`, `fts_remove_entity`,
  `fts_rebuild_index`) are embedded exactly as their bodies execute: each
  logs and returns a constant (`fts_search` returns `Ok(vec![])`, the
  mutators return `Ok(true)`), touching no state — the SQL in the
  surrounding comments is never run.
-/

namespace Notly

/-- A filesystem path, as a list of components. -/
abbrev FPath := List String

/-- Explicit filesystem state: files (path to contents) and directories. -/
structure FS where
  files : List (FPath × String)
  dirs : List FPath
deriving DecidableEq, Repr

/-- Look a file up by path; the first matching entry wins, which realizes
overwrite-by-prepend in `setFile`. -/
def lookupFile : List (FPath × String) → FPath → Option String
  | [], _ => none
  | e :: rest, p => if e.1 = p then some e.2 else lookupFile rest p

/-- Contents of the file at `p`, if a regular file exists there. -/
def FS.getFile (fs : FS) (p : FPath) : Option String :=
  lookupFile fs.files p

/-- Existence check (`Path::exists()`): true when `p` is a regular file or a directory. -/
def FS.pathExists (fs : FS) (p : FPath) : Bool :=
  (fs.getFile p).isSome || fs.dirs.any (fun q => q = p)

/-- Target write of `fs::copy`: create or overwrite the file at `p`. -/
def FS.setFile (fs : FS) (p : FPath) (v : String) : FS :=
  { fs with files := (p, v) :: fs.files }

/-- Removal (`fs::remove_file`): drop the file at `p`. -/
def FS.eraseFile (fs : FS) (p : FPath) : FS :=
  { fs with files := fs.files.filter (fun e => decide (e.1 ≠ p)) }

/-- Directory creation (`fs::create_dir_all`) on `p` (parent components elided: no claim
depends on them). -/
def FS.mkdirAll (fs : FS) (p : FPath) : FS :=
  { fs with dirs := p :: fs.dirs }

/-- Render a path the way the Rust code renders `source_path` in messages. -/
def joinPath (p : FPath) : String :=
  String.intercalate "/" p

/-- Original filename, as `Path::file_name().and_then(to_str).unwrap_or("file")`:
the last normal
component; `None` (root, `..`-ending paths) falls back to `"file"`. -/
def fileName (p : FPath) : String :=
  match (p.filter (fun c => decide (c ≠ "" ∧ c ≠ "."))).getLast? with
  | some c => if c = ".." then "file" else c
  | none => "file"

/-- Embedding of `copy_file_to_assets(app, source_path, file_type)` from
`database.rs:354-405`, with the app-data directory, the millisecond
timestamp and the filesystem passed explicitly.  Returns the new filesystem
and the `Result<String, String>` of the command. -/
def copyFileToAssets (appDataDir : FPath) (sourcePath : FPath)
    (fileType : String) (ts : Int) (fs : FS) : FS × Except String String :=
  if fs.pathExists sourcePath = false then
    (fs, .error ("Source file does not exist: " ++ joinPath sourcePath))
  else
    let subdir := if fileType = "pdf" then "pdfs"
      else if fileType = "image" then "images" else "other"
    let assetsDir := appDataDir ++ ["assets", subdir]
    let fs1 := fs.mkdirAll assetsDir
    let newFilename := toString ts ++ "_" ++ fileName sourcePath
    let targetPath := assetsDir ++ [newFilename]
    match fs1.getFile sourcePath with
    | some contents =>
        (fs1.setFile targetPath contents, .ok (subdir ++ "/" ++ newFilename))
    | none => (fs1, .error ("Failed to copy file: " ++ joinPath sourcePath))

/-- Embedding of `delete_asset_file(app, relative_path)` from `database.rs:409-430`. -/
def deleteAssetFile (appDataDir : FPath) (relativePath : FPath) (fs : FS) :
    FS × Except String Bool :=
  let filePath := appDataDir ++ ("assets" :: relativePath)
  if fs.pathExists filePath then
    match fs.getFile filePath with
    | some _ => (fs.eraseFile filePath, .ok true)
    | none => (fs, .error ("Failed to delete file: " ++ joinPath filePath))
  else (fs, .ok false)

/-- Embedding of `get_asset_path(app, relative_path)` from `database.rs:434-444`:
pure path composition. -/
def getAssetPath (appDataDir : FPath) (relativePath : FPath) : FPath :=
  appDataDir ++ ("assets" :: relativePath)

/-! Helper lemmas about the filesystem model -/

@[simp] theorem getFile_mkdirAll (fs : FS) (d p : FPath) :
    (fs.mkdirAll d).getFile p = fs.getFile p := rfl

theorem getFile_setFile (fs : FS) (p q : FPath) (v : String) :
    (fs.setFile p v).getFile q = if p = q then some v else fs.getFile q := by
  simp [FS.setFile, FS.getFile, lookupFile]

theorem lookupFile_filter_self (l : List (FPath × String)) (p : FPath) :
    lookupFile (l.filter fun e => decide (e.1 ≠ p)) p = none := by
  induction l with
  | nil => rfl
  | cons e rest ih =>
    rw [List.filter_cons]
    by_cases h : e.1 = p
    · have hd : decide (e.1 ≠ p) = false := by simp [h]
      rw [hd]
      simpa using ih
    · have hd : decide (e.1 ≠ p) = true := by simp [h]
      rw [hd]
      simpa [lookupFile, h] using ih

theorem lookupFile_filter_other (l : List (FPath × String)) (p q : FPath)
    (h : q ≠ p) :
    lookupFile (l.filter fun e => decide (e.1 ≠ p)) q = lookupFile l q := by
  induction l with
  | nil => rfl
  | cons e rest ih =>
    rw [List.filter_cons]
    by_cases he : e.1 = p
    · have hq : e.1 ≠ q := fun hh => h (by rw [← hh, he])
      have hd : decide (e.1 ≠ p) = false := by simp [he]
      rw [hd]
      simpa [lookupFile, hq] using ih
    · have hd : decide (e.1 ≠ p) = true := by simp [he]
      rw [hd]
      by_cases hq : e.1 = q
      · simp [lookupFile, hq]
      · simpa [lookupFile, hq] using ih

theorem getFile_eraseFile_self (fs : FS) (p : FPath) :
    (fs.eraseFile p).getFile p = none :=
  lookupFile_filter_self fs.files p

theorem getFile_eraseFile_other (fs : FS) (p q : FPath) (h : q ≠ p) :
    (fs.eraseFile p).getFile q = fs.getFile q :=
  lookupFile_filter_other fs.files p q h

theorem pathExists_of_getFile (fs : FS) (p : FPath) (v : String)
    (h : fs.getFile p = some v) : fs.pathExists p = true := by
  simp [FS.pathExists, h]

@[simp] theorem dirs_eraseFile (fs : FS) (p : FPath) :
    (fs.eraseFile p).dirs = fs.dirs := rfl

@[simp] theorem files_mkdirAll (fs : FS) (p : FPath) :
    (fs.mkdirAll p).files = fs.files := rfl

/-- The category subdirectory chosen by `copy_file_to_assets` for a
`file_type` (the `match file_type.as_str()` at `database.rs:375-379`). -/
def categoryOf (fileType : String) : String :=
  if fileType = "pdf" then "pdfs"
  else if fileType = "image" then "images" else "other"

theorem copyFileToAssets_success (appDataDir sourcePath : FPath)
    (fileType : String) (ts : Int) (fs : FS) (v : String)
    (hsrc : fs.getFile sourcePath = some v) :
    copyFileToAssets appDataDir sourcePath fileType ts fs =
      ((fs.mkdirAll (appDataDir ++ ["assets", categoryOf fileType])).setFile
        ((appDataDir ++ ["assets", categoryOf fileType]) ++
          [toString ts ++ "_" ++ fileName sourcePath]) v,
       .ok (categoryOf fileType ++ "/" ++
        (toString ts ++ "_" ++ fileName sourcePath))) := by
  have hex : fs.pathExists sourcePath = true := pathExists_of_getFile fs _ v hsrc
  unfold copyFileToAssets
  rw [hex]
  simp only [Bool.true_eq_false, if_false, getFile_mkdirAll, hsrc, categoryOf]

/-- Claim C8 — on success, the locator returned by `copy_file_to_assets` is
`<category>/<millisecond-timestamp>_<original-filename>`, where the category
is `pdfs` for file_type `"pdf"`, `images` for `"image"` and `other`
otherwise, and the category directory exists afterwards. -/
theorem copy_file_to_assets_locator_format (appDataDir sourcePath : FPath)
    (fileType : String) (ts : Int) (fs : FS) (v : String)
    (hsrc : fs.getFile sourcePath = some v) :
    (copyFileToAssets appDataDir sourcePath fileType ts fs).2 =
      .ok (categoryOf fileType ++ "/" ++
        (toString ts ++ "_" ++ fileName sourcePath)) ∧
    (fileType = "pdf" → categoryOf fileType = "pdfs") ∧
    (fileType = "image" → categoryOf fileType = "images") ∧
    (fileType ≠ "pdf" → fileType ≠ "image" → categoryOf fileType = "other") ∧
    (appDataDir ++ ["assets", categoryOf fileType])
      ∈ (copyFileToAssets appDataDir sourcePath fileType ts fs).1.dirs := by
  rw [copyFileToAssets_success appDataDir sourcePath fileType ts fs v hsrc]
  refine ⟨rfl, ?_, ?_, ?_, ?_⟩
  · intro h; simp [categoryOf, h]
  · intro h; simp [categoryOf, h]
  · intro h1 h2; simp [categoryOf, h1, h2]
  · simp [FS.setFile, FS.mkdirAll]

/-- Witness for C8 at a concrete input. -/
theorem copy_file_to_assets_locator_format_witness :
    (copyFileToAssets [] ["home", "a.pdf"] "pdf" 7
      ⟨[(["home", "a.pdf"], "DATA")], []⟩).2 =
      .ok (categoryOf "pdf" ++ "/" ++
        (toString (7 : Int) ++ "_" ++ fileName ["home", "a.pdf"])) ∧
    ("pdf" = "pdf" → categoryOf "pdf" = "pdfs") ∧
    ("pdf" = "image" → categoryOf "pdf" = "images") ∧
    ("pdf" ≠ "pdf" → "pdf" ≠ "image" → categoryOf "pdf" = "other") ∧
    ([] ++ ["assets", categoryOf "pdf"])
      ∈ (copyFileToAssets [] ["home", "a.pdf"] "pdf" 7
        ⟨[(["home", "a.pdf"], "DATA")], []⟩).1.dirs :=
  copy_file_to_assets_locator_format [] ["home", "a.pdf"] "pdf" 7
    ⟨[(["home", "a.pdf"], "DATA")], []⟩ "DATA" rfl

/-- Claim C9 — `copy_file_to_assets` copies and never moves: after a
successful call the source file still holds its original contents, the
copied file under the asset root holds those same contents, and every other
path is untouched. -/
theorem copy_file_to_assets_preserves_source (appDataDir sourcePath : FPath)
    (fileType : String) (ts : Int) (fs : FS) (v : String)
    (hsrc : fs.getFile sourcePath = some v) :
    ((copyFileToAssets appDataDir sourcePath fileType ts fs).2).isOk = true ∧
    (copyFileToAssets appDataDir sourcePath fileType ts fs).1.getFile
      sourcePath = some v ∧
    (copyFileToAssets appDataDir sourcePath fileType ts fs).1.getFile
      ((appDataDir ++ ["assets", categoryOf fileType]) ++
        [toString ts ++ "_" ++ fileName sourcePath]) = some v ∧
    ∀ p : FPath,
      p ≠ (appDataDir ++ ["assets", categoryOf fileType]) ++
        [toString ts ++ "_" ++ fileName sourcePath] →
      (copyFileToAssets appDataDir sourcePath fileType ts fs).1.getFile p =
        fs.getFile p := by
  rw [copyFileToAssets_success appDataDir sourcePath fileType ts fs v hsrc]
  refine ⟨rfl, ?_, ?_, ?_⟩
  · rw [getFile_setFile]
    split
    · rfl
    · simpa using hsrc
  · rw [getFile_setFile]
    simp
  · intro p hp
    rw [getFile_setFile, if_neg (fun hh => hp hh.symm), getFile_mkdirAll]

/-- Witness for C9 at a concrete input. -/
theorem copy_file_to_assets_preserves_source_witness :
    ((copyFileToAssets [] ["doc.txt"] "other-type" 3
      ⟨[(["doc.txt"], "ten bytes!")], []⟩).2).isOk = true ∧
    (copyFileToAssets [] ["doc.txt"] "other-type" 3
      ⟨[(["doc.txt"], "ten bytes!")], []⟩).1.getFile ["doc.txt"] =
        some "ten bytes!" ∧
    (copyFileToAssets [] ["doc.txt"] "other-type" 3
      ⟨[(["doc.txt"], "ten bytes!")], []⟩).1.getFile
      (([] ++ ["assets", categoryOf "other-type"]) ++
        [toString (3 : Int) ++ "_" ++ fileName ["doc.txt"]]) =
      some "ten bytes!" ∧
    ∀ p : FPath,
      p ≠ ([] ++ ["assets", categoryOf "other-type"]) ++
        [toString (3 : Int) ++ "_" ++ fileName ["doc.txt"]] →
      (copyFileToAssets [] ["doc.txt"] "other-type" 3
        ⟨[(["doc.txt"], "ten bytes!")], []⟩).1.getFile p =
        FS.getFile ⟨[(["doc.txt"], "ten bytes!")], []⟩ p :=
  copy_file_to_assets_preserves_source [] ["doc.txt"] "other-type" 3
    ⟨[(["doc.txt"], "ten bytes!")], []⟩ "ten bytes!" rfl

/-- Claim C6, amended — if the source path exists neither as a file nor as a
directory, `copy_file_to_assets` fails with the source-does-not-exist error
and the filesystem is completely unchanged. -/
theorem copy_file_to_assets_missing_source (appDataDir sourcePath : FPath)
    (fileType : String) (ts : Int) (fs : FS)
    (h : fs.pathExists sourcePath = false) :
    copyFileToAssets appDataDir sourcePath fileType ts fs =
      (fs, .error ("Source file does not exist: " ++ joinPath sourcePath)) := by
  unfold copyFileToAssets
  rw [h]
  simp

/-- Witness for the amended C6 at a concrete input. -/
theorem copy_file_to_assets_missing_source_witness :
    copyFileToAssets [] ["missing.pdf"] "pdf" 0 ⟨[], []⟩ =
      (⟨[], []⟩, .error ("Source file does not exist: " ++
        joinPath ["missing.pdf"])) :=
  copy_file_to_assets_missing_source [] ["missing.pdf"] "pdf" 0 ⟨[], []⟩ rfl

/-- Counterexample to claim C6 as stated: a `source_path` naming an existing
*directory* does not resolve to an existing file, yet `copy_file_to_assets`
passes the `source.exists()` check, creates the category directory in the
asset store, and then fails with the copy error rather than the
source-does-not-exist error. -/
theorem copy_file_to_assets_dir_source_counterexample :
    FS.getFile ⟨[], [["srcdir"]]⟩ ["srcdir"] = none ∧
    ["assets", "pdfs"] ∉ FS.dirs ⟨[], [["srcdir"]]⟩ ∧
    (copyFileToAssets [] ["srcdir"] "pdf" 0 ⟨[], [["srcdir"]]⟩).1.dirs =
      [["assets", "pdfs"], ["srcdir"]] ∧
    ["assets", "pdfs"] ∈
      (copyFileToAssets [] ["srcdir"] "pdf" 0 ⟨[], [["srcdir"]]⟩).1.dirs ∧
    (copyFileToAssets [] ["srcdir"] "pdf" 0 ⟨[], [["srcdir"]]⟩).2 =
      .error ("Failed to copy file: srcdir") := by
  refine ⟨rfl, by decide, rfl, by decide, rfl⟩

/-- Claim C7 — `delete_asset_file`: a locator whose target file is absent
yields `Ok(false)` (not an error); a locator whose target exists is removed
and yields `Ok(true)`, and a second deletion of the same locator yields
`Ok(false)`.  (The resolved path is assumed not to name a directory: asset
locators as produced by ingestion always denote regular files.) -/
theorem delete_asset_file_spec (appDataDir relativePath : FPath) (fs : FS)
    (hnd : (appDataDir ++ ("assets" :: relativePath)) ∉ fs.dirs) :
    (fs.getFile (getAssetPath appDataDir relativePath) = none →
      deleteAssetFile appDataDir relativePath fs = (fs, .ok false)) ∧
    (∀ v, fs.getFile (getAssetPath appDataDir relativePath) = some v →
      (deleteAssetFile appDataDir relativePath fs).2 = .ok true ∧
      (deleteAssetFile appDataDir relativePath fs).1.getFile
        (getAssetPath appDataDir relativePath) = none ∧
      deleteAssetFile appDataDir relativePath
        (deleteAssetFile appDataDir relativePath fs).1 =
        ((deleteAssetFile appDataDir relativePath fs).1, .ok false)) := by
  have hany : fs.dirs.any
      (fun q => q = appDataDir ++ ("assets" :: relativePath)) = false := by
    rw [Bool.eq_false_iff]
    intro htrue
    obtain ⟨q, hq, hqt⟩ := List.any_eq_true.mp htrue
    exact hnd ((of_decide_eq_true hqt) ▸ hq)
  constructor
  · intro h0
    have h0' : fs.getFile (appDataDir ++ ("assets" :: relativePath)) =
        none := h0
    unfold deleteAssetFile
    simp [FS.pathExists, h0', hany]
  · intro v hv
    have hv' : fs.getFile (appDataDir ++ ("assets" :: relativePath)) =
        some v := hv
    have step1 : deleteAssetFile appDataDir relativePath fs =
        (fs.eraseFile (appDataDir ++ ("assets" :: relativePath)), .ok true) := by
      unfold deleteAssetFile
      simp [FS.pathExists, hv']
    rw [step1]
    refine ⟨rfl, getFile_eraseFile_self fs _, ?_⟩
    have hz : FS.getFile
        (fs.eraseFile (appDataDir ++ ("assets" :: relativePath)))
        (appDataDir ++ ("assets" :: relativePath)) = none :=
      getFile_eraseFile_self fs _
    unfold deleteAssetFile
    simp [FS.pathExists, hz, dirs_eraseFile, hany, -List.any_eq_false]

/-- Witness for C7 at a concrete input: the asset file `pdfs/9_a.pdf`
exists, is deleted (returning `true`), and a second deletion returns
`false`; deleting the absent `pdfs/9_a.pdf` from the empty store returns
`false`. -/
theorem delete_asset_file_spec_witness :
    (deleteAssetFile [] ["pdfs", "9_a.pdf"] ⟨[], []⟩ =
      (⟨[], []⟩, .ok false)) ∧
    ((deleteAssetFile [] ["pdfs", "9_a.pdf"]
        ⟨[(["assets", "pdfs", "9_a.pdf"], "V")], []⟩).2 = .ok true ∧
      (deleteAssetFile [] ["pdfs", "9_a.pdf"]
        ⟨[(["assets", "pdfs", "9_a.pdf"], "V")], []⟩).1.getFile
        (getAssetPath [] ["pdfs", "9_a.pdf"]) = none ∧
      deleteAssetFile [] ["pdfs", "9_a.pdf"]
        (deleteAssetFile [] ["pdfs", "9_a.pdf"]
          ⟨[(["assets", "pdfs", "9_a.pdf"], "V")], []⟩).1 =
        ((deleteAssetFile [] ["pdfs", "9_a.pdf"]
          ⟨[(["assets", "pdfs", "9_a.pdf"], "V")], []⟩).1, .ok false)) :=
  ⟨(delete_asset_file_spec [] ["pdfs", "9_a.pdf"] ⟨[], []⟩ (by decide)).1 rfl,
   (delete_asset_file_spec [] ["pdfs", "9_a.pdf"]
      ⟨[(["assets", "pdfs", "9_a.pdf"], "V")], []⟩ (by decide)).2 "V" rfl⟩

/-- Claim C5 — ingesting the same existing source file twice with file_type
`"pdf"` (at distinct millisecond timestamps, which render as distinct
strings) yields two distinct locators under the `pdfs` category, and both
locators resolve (via `get_asset_path`) to existing files each holding the
source's contents. -/
theorem copy_file_to_assets_twice_distinct (appDataDir sourcePath : FPath)
    (ts1 ts2 : Int) (fs : FS) (v : String)
    (hsrc : fs.getFile sourcePath = some v)
    (hts : toString ts1 ≠ toString ts2) :
    (copyFileToAssets appDataDir sourcePath "pdf" ts1 fs).2 =
      .ok ("pdfs" ++ "/" ++ (toString ts1 ++ "_" ++ fileName sourcePath)) ∧
    (copyFileToAssets appDataDir sourcePath "pdf" ts2
        (copyFileToAssets appDataDir sourcePath "pdf" ts1 fs).1).2 =
      .ok ("pdfs" ++ "/" ++ (toString ts2 ++ "_" ++ fileName sourcePath)) ∧
    ("pdfs" ++ "/" ++ (toString ts1 ++ "_" ++ fileName sourcePath) : String) ≠
      "pdfs" ++ "/" ++ (toString ts2 ++ "_" ++ fileName sourcePath) ∧
    FS.getFile (copyFileToAssets appDataDir sourcePath "pdf" ts2
        (copyFileToAssets appDataDir sourcePath "pdf" ts1 fs).1).1
      (getAssetPath appDataDir
        ["pdfs", toString ts1 ++ "_" ++ fileName sourcePath]) = some v ∧
    FS.getFile (copyFileToAssets appDataDir sourcePath "pdf" ts2
        (copyFileToAssets appDataDir sourcePath "pdf" ts1 fs).1).1
      (getAssetPath appDataDir
        ["pdfs", toString ts2 ++ "_" ++ fileName sourcePath]) = some v := by
  have hcat : categoryOf "pdf" = "pdfs" := by decide
  have h1 := copyFileToAssets_success appDataDir sourcePath "pdf" ts1 fs v hsrc
  rw [hcat] at h1
  have hsrc1 : (copyFileToAssets appDataDir sourcePath "pdf" ts1 fs).1.getFile
      sourcePath = some v := by
    rw [h1, getFile_setFile]
    split
    · rfl
    · simpa using hsrc
  have h2 := copyFileToAssets_success appDataDir sourcePath "pdf" ts2
    (copyFileToAssets appDataDir sourcePath "pdf" ts1 fs).1 v hsrc1
  rw [hcat] at h2
  have hnm : (toString ts1 ++ "_" ++ fileName sourcePath : String) ≠
      toString ts2 ++ "_" ++ fileName sourcePath := by
    intro h
    apply hts
    have hd := congrArg String.data h
    simp [String.data_append] at hd
    exact String.ext hd
  refine ⟨?_, ?_, ?_, ?_, ?_⟩
  · rw [h1]
  · rw [h2]
  · intro h
    apply hts
    have hd := congrArg String.data h
    simp [String.data_append] at hd
    exact String.ext hd
  · have hpath : getAssetPath appDataDir
        ["pdfs", toString ts1 ++ "_" ++ fileName sourcePath] =
        (appDataDir ++ ["assets", "pdfs"]) ++
          [toString ts1 ++ "_" ++ fileName sourcePath] := by
      simp [getAssetPath]
    rw [hpath, h2, getFile_setFile]
    rw [if_neg]
    · rw [getFile_mkdirAll, h1, getFile_setFile, if_pos rfl]
    · intro hh
      exact hnm (by simpa using hh.symm)
  · have hpath : getAssetPath appDataDir
        ["pdfs", toString ts2 ++ "_" ++ fileName sourcePath] =
        (appDataDir ++ ["assets", "pdfs"]) ++
          [toString ts2 ++ "_" ++ fileName sourcePath] := by
      simp [getAssetPath]
    rw [hpath, h2, getFile_setFile, if_pos rfl]

/-- Witness for C5 at a concrete input. -/
theorem copy_file_to_assets_twice_distinct_witness :
    (copyFileToAssets [] ["foo.pdf"] "pdf" 1 ⟨[(["foo.pdf"], "P")], []⟩).2 =
      .ok ("pdfs" ++ "/" ++ (toString (1 : Int) ++ "_" ++
        fileName ["foo.pdf"])) ∧
    (copyFileToAssets [] ["foo.pdf"] "pdf" 2
        (copyFileToAssets [] ["foo.pdf"] "pdf" 1
          ⟨[(["foo.pdf"], "P")], []⟩).1).2 =
      .ok ("pdfs" ++ "/" ++ (toString (2 : Int) ++ "_" ++
        fileName ["foo.pdf"])) ∧
    ("pdfs" ++ "/" ++ (toString (1 : Int) ++ "_" ++ fileName ["foo.pdf"])
        : String) ≠
      "pdfs" ++ "/" ++ (toString (2 : Int) ++ "_" ++ fileName ["foo.pdf"]) ∧
    FS.getFile (copyFileToAssets [] ["foo.pdf"] "pdf" 2
        (copyFileToAssets [] ["foo.pdf"] "pdf" 1
          ⟨[(["foo.pdf"], "P")], []⟩).1).1
      (getAssetPath []
        ["pdfs", toString (1 : Int) ++ "_" ++ fileName ["foo.pdf"]]) =
      some "P" ∧
    FS.getFile (copyFileToAssets [] ["foo.pdf"] "pdf" 2
        (copyFileToAssets [] ["foo.pdf"] "pdf" 1
          ⟨[(["foo.pdf"], "P")], []⟩).1).1
      (getAssetPath []
        ["pdfs", toString (2 : Int) ++ "_" ++ fileName ["foo.pdf"]]) =
      some "P" :=
  copy_file_to_assets_twice_distinct [] ["foo.pdf"] 1 2
    ⟨[(["foo.pdf"], "P")], []⟩ "P" rfl (by decide)

/-! Cards.

`create_card` (`database.rs:174-193`) is a pure computation; the
`chrono::Utc::now().timestamp_millis()` result is passed in as `now`. -/

/-- The `Card` struct from `database.rs:32-43` (`i32`/`i64` fields are
carried as `Int`; the `as i32` cast is applied by `i32ofNat` below). -/
structure Card where
  id : String
  title : Option String
  content : String
  content_type : String
  color : Option String
  is_hidden : Bool
  word_count : Int
  created_at : Int
  updated_at : Int
  metadata : Option String
deriving DecidableEq, Repr

/-- Rust's `char::is_whitespace` (the Unicode `White_Space` set). -/
def rustWhitespace (c : Char) : Bool :=
  [0x09, 0x0A, 0x0B, 0x0C, 0x0D, 0x20, 0x85, 0xA0, 0x1680,
   0x2000, 0x2001, 0x2002, 0x2003, 0x2004, 0x2005, 0x2006, 0x2007,
   0x2008, 0x2009, 0x200A, 0x2028, 0x2029, 0x202F, 0x205F,
   0x3000].contains c.toNat

/-- Split a character list into its maximal runs of characters satisfying
`p`, accumulating the current run (reversed) in `acc`. -/
def wordsAux (p : Char → Bool) : List Char → List Char → List (List Char)
  | [], acc => if acc.isEmpty then [] else [acc.reverse]
  | c :: cs, acc =>
    if p c then wordsAux p cs (c :: acc)
    else if acc.isEmpty then wordsAux p cs []
    else acc.reverse :: wordsAux p cs []

/-- The maximal runs of characters satisfying `p` in `l`. -/
def splitWords (p : Char → Bool) (l : List Char) : List (List Char) :=
  wordsAux p l []

/-- Word count, as `content.split_whitespace().count()`: the number of maximal
non-whitespace runs in `content`. -/
def wordCountNat (content : String) : Nat :=
  (splitWords (fun c => !rustWhitespace c) content.data).length

/-- The `as i32` cast: truncate to 32 bits and reinterpret as signed. -/
def i32ofNat (n : Nat) : Int :=
  if n % 2 ^ 32 < 2 ^ 31 then ((n % 2 ^ 32 : Nat) : Int)
  else ((n % 2 ^ 32 : Nat) : Int) - 2 ^ 32

/-- Embedding of `create_card(id, title, content)` from `database.rs:174-193`. -/
def createCard (id : String) (title : Option String) (content : String)
    (now : Int) : Except String Card :=
  .ok { id := id, title := title, content := content,
        content_type := "tiptap", color := none, is_hidden := false,
        word_count := i32ofNat (wordCountNat content),
        created_at := now, updated_at := now, metadata := none }

/-- Claim C10 — `create_card` always succeeds and returns a card whose
`word_count` is the number of whitespace-separated words of `content`
(provided that count fits in an `i32`, i.e. below `2^31`) and whose
`created_at` equals its `updated_at`. -/
theorem create_card_spec (id : String) (title : Option String)
    (content : String) (now : Int)
    (h : wordCountNat content < 2 ^ 31) :
    ∃ c : Card, createCard id title content now = .ok c ∧
      c.word_count = (wordCountNat content : Int) ∧
      c.created_at = c.updated_at := by
  refine ⟨_, rfl, ?_, rfl⟩
  show i32ofNat (wordCountNat content) = _
  unfold i32ofNat
  have hm : wordCountNat content % 2 ^ 32 = wordCountNat content :=
    Nat.mod_eq_of_lt (lt_trans h (by norm_num))
  rw [hm, if_pos h]

/-- Witness for C10 at a concrete input. -/
theorem create_card_spec_witness :
    ∃ c : Card, createCard "c1" none "hello  brave world" 5 = .ok c ∧
      c.word_count = (wordCountNat "hello  brave world" : Int) ∧
      c.created_at = c.updated_at :=
  create_card_spec "c1" none "hello  brave world" 5 (by decide)

/-! Full-text search commands.

The four `fts_*` commands at `database.rs:275-334` are embedded exactly as
written.  Each body only logs and returns a constant: `fts_search` returns
`Ok(vec![])` unconditionally, and `fts_index_entity`, `fts_remove_entity`
and `fts_rebuild_index` return `Ok(true)` unconditionally while touching no
state whatsoever (the SQL in the surrounding comments is never executed, and
the commands receive no database handle).  The embeddings are therefore
stateless constant functions; the claims about index behaviour are settled
against these actual bodies. -/

/-- The `FTSSearchResult` struct from `database.rs:266-272`.  The source
also carries `rank: f64`; floating point is not modelled — no value of this
type is ever constructed by the program, since `fts_search` always returns
the empty vector. -/
structure FTSSearchResult where
  entity_type : String
  entity_id : String
  title : String
  snippet : String
deriving DecidableEq, Repr

/-- Embedding of `fts_search(query, types, date_from, date_to, limit)` from
`database.rs:276-291`: the body logs and unconditionally returns
`Ok(vec![])` ("frontend will use MiniSearch as fallback"); the `SELECT`
appears only in a comment. -/
def ftsSearch (_query : String) (_types : List String)
    (_dateFrom _dateTo : Option Int) (_limit : Option Int) :
    Except String (List FTSSearchResult) :=
  .ok []

/-- Embedding of `fts_index_entity(entity_type, entity_id, title, content,
tags)` from `database.rs:294-308`: the body logs and unconditionally
returns `Ok(true)`; it validates nothing and writes nothing (the
`INSERT OR REPLACE` appears only in a comment). -/
def ftsIndexEntity (_entity_type _entity_id _title _content _tags : String) :
    Except String Bool :=
  .ok true

/-- Embedding of `fts_remove_entity(entity_type, entity_id)` from
`database.rs:311-321`: the body logs and unconditionally returns
`Ok(true)`; it deletes nothing (the `DELETE` appears only in a comment). -/
def ftsRemoveEntity (_entity_type _entity_id : String) :
    Except String Bool :=
  .ok true

/-- Embedding of `fts_rebuild_index()` from `database.rs:324-334`: the body
logs and unconditionally returns `Ok(true)`; it mutates nothing (the
delete-and-reinsert plan appears only in a comment). -/
def ftsRebuildIndex : Except String Bool :=
  .ok true

/-! Claim theorems for the search commands.

Claims C1-C4 are code bugs: the spec (and the SQL the source's own comments
say production would run) describes a real index, but the shipped bodies
return constants, so the claimed behaviours fail on concrete inputs.  The
theorems below evaluate the code at those failing inputs. -/

/-- Claim C1 is a code bug — indexing a record reports success, yet a
search for a token of its content (indeed any search at all) returns the
empty result list, never the record's key. -/
theorem fts_index_then_search_code_bug :
    ftsIndexEntity "card" "c1" "Title" "alpha beta" "" = .ok true ∧
    ftsSearch "beta" [] none none none = .ok ([] : List FTSSearchResult) ∧
    ∀ (query : String) (types : List String) (dateFrom dateTo : Option Int)
      (limit : Option Int),
      ftsSearch query types dateFrom dateTo limit =
        .ok ([] : List FTSSearchResult) :=
  ⟨rfl, rfl, fun _ _ _ _ _ => rfl⟩

/-- Claim C2 is a code bug — `fts_rebuild_index` reports success but
mutates nothing (it does not even receive the source records), and a
subsequent search still returns the empty list rather than the matching
subset of the sources. -/
theorem fts_rebuild_then_search_code_bug :
    ftsRebuildIndex = .ok true ∧
    ftsSearch "beta" ["card"] none none none =
      .ok ([] : List FTSSearchResult) :=
  ⟨rfl, rfl⟩

/-- Claim C3 is a code bug — `fts_index_entity` called with empty
`entity_type` and `entity_id` succeeds with `Ok(true)` (fail open) instead
of failing with a validation error. -/
theorem fts_index_entity_fail_open_code_bug :
    ftsIndexEntity "" "" "Title" "body" "" = .ok true :=
  rfl

/-- Claim C4 is a code bug — `fts_remove_entity` unconditionally returns
`Ok(true)`: removing a key that is not present (no key ever is, since the
program maintains no index) reports `true`, never the claimed `false`. -/
theorem fts_remove_entity_code_bug :
    ftsRemoveEntity "card" "missing" = .ok true :=
  rfl

end Notly
